import Mathlib

/-
Verification of uploader_service/src/uploader_service/server.py

The server exposes two MCP tools.  We embed the tool registry
(list_tools), the dispatcher (call_tool) and the build/upload
orchestrator (handle_build_upload) as pure Lean functions.  External
effects (filesystem checks, temporary-directory creation, subprocess
invocation) are supplied by a World record and recorded in an ordered
event trace, so that temporal claims ("upload never starts unless the
build succeeded", "files are written before any command runs") become
statements about the trace.
-/

/-- A Python value appearing in a tool-call argument mapping.  The
server only ever manipulates strings and integers. -/
inductive Value where
  | str (s : String)
  | int (n : Int)
deriving DecidableEq, Repr

/-- Python truthiness for the values we model: a string is truthy iff
non-empty, an integer iff nonzero. -/
def Value.truthy : Value → Bool
  | .str s => s ≠ ""
  | .int n => n ≠ 0

/-- The argument mapping passed to a tool call (a Python dict with
string keys).  Keys are unique in a dict; we model it as an
association list read through its first binding. -/
abbrev Args := List (String × Value)

/-- dict lookup returning an Option (Python dict.get(k)). -/
def Args.get? (a : Args) (k : String) : Option Value :=
  (List.find? (fun kv => kv.1 == k) a).map (fun kv => kv.2)

/-- dict.get(k, default). -/
def Args.getD (a : Args) (k : String) (d : Value) : Value :=
  (Args.get? a k).getD d

/-- Truthiness of dict.get(k): Python None is falsy. -/
def optTruthy : Option Value → Bool
  | none => false
  | some v => v.truthy

/-- The Python exceptions the server can raise, with enough payload to
reproduce str(e) and the except-clause dispatch.  A CalledProcessError
from subprocess.check_output carries the captured bytes; one from
subprocess.check_call carries none (output is None). -/
inductive PyError where
  | keyError (key : String)
  | valueError (msg : String)
  | fileNotFoundError (msg : String)
  | typeError (msg : String)
  | attributeError (msg : String)
  | calledProcessError (code : Int) (cmd : List String) (output : Option (List Nat))
deriving DecidableEq, Repr

/-- str(e) for the exceptions above.  str of a KeyError is the repr of
the key, i.e. the key in single quotes. -/
def PyError.toStr : PyError → String
  | .keyError k => "\x27" ++ k ++ "\x27"
  | .valueError m => m
  | .fileNotFoundError m => m
  | .typeError m => m
  | .attributeError m => m
  | .calledProcessError code _ _ =>
      "Command returned non-zero exit status " ++ toString code ++ "."

/-- mcp.types.TextContent(type="text", text=...). -/
structure TextContent where
  type : String
  text : String
deriving DecidableEq, Repr

/-- What a handler invocation does to the outside world, in order. -/
inductive Event where
  | mkdtemp (path : String)
  | mkdir (path : String)
  | writeFile (path : String) (content : String)
  | checkExists (path : String) (result : Bool)
  | runCheckOutput (cmd : List String) (code : Int) (output : List Nat)
  | runCheckCall (cmd : List String) (code : Int)
deriving DecidableEq, Repr

/-- Whether an event is an external command invocation. -/
def Event.isRun : Event → Bool
  | .runCheckOutput _ _ _ => true
  | .runCheckCall _ _ => true
  | _ => false

/-- The ambient environment: path resolution, filesystem queries, the
name mkdtemp will return, and the exit status (and, for check_output,
the combined stdout+stderr bytes) of each external command. -/
structure World where
  resolvePath : String → String
  pathExists : String → Bool
  tmpdir : String
  runCheckOutput : List String → Int × List Nat
  runCheckCall : List String → Int

/-- Result of a dispatched call: either a returned list of text
segments, or an exception propagated past the handler boundary. -/
inductive Outcome where
  | segments (l : List TextContent)
  | raised (e : PyError)
deriving DecidableEq, Repr

/-! ### int() coercion (server.py line 90: `baud = int(arguments.get("baud", 115200))`) -/

/-- Digits of a base-10 literal; none if empty or a non-digit occurs. -/
def digitsToNat : List Char → Option Nat
  | [] => none
  | l => l.foldl (fun acc c =>
      match acc with
      | none => none
      | some n => if c.isDigit then some (n * 10 + (c.toNat - 48)) else none)
      (some 0)

/-- Surrounding whitespace, stripped as int() does before parsing. -/
def stripWs (l : List Char) : List Char :=
  ((l.dropWhile (fun c => c.isWhitespace)).reverse.dropWhile
    (fun c => c.isWhitespace)).reverse

/-- Python int(s) on a string: optional surrounding whitespace, an
optional sign, then decimal digits.  (Underscore separators, accepted
by CPython, are not modelled; no claim involves them.) -/
def strToInt (s : String) : Option Int :=
  match stripWs s.data with
  | '-' :: rest => (digitsToNat rest).map (fun n => -(n : Int))
  | '+' :: rest => (digitsToNat rest).map (fun n => (n : Int))
  | l => (digitsToNat l).map (fun n => (n : Int))

/-- int(v): identity on ints, parse on strings, ValueError on a
non-numeric string (message as CPython prints it). -/
def pyInt : Value → Except PyError Int
  | .int n => .ok n
  | .str s =>
      match strToInt s with
      | some n => .ok n
      | none => .error (.valueError
          ("invalid literal for int() with base 10: \x27" ++ s ++ "\x27"))

/-! ### UTF-8 decoding with errors="ignore" (server.py line 126) -/

/-- A UTF-8 continuation byte. -/
def isCont (b : Nat) : Bool := 0x80 ≤ b && b ≤ 0xBF

/-- Valid second byte after a three-byte leader (excludes overlong
encodings and surrogates, as CPython does). -/
def cont3ok (b b2 : Nat) : Bool :=
  if b = 0xE0 then 0xA0 ≤ b2 && b2 ≤ 0xBF
  else if b = 0xED then 0x80 ≤ b2 && b2 ≤ 0x9F
  else isCont b2

/-- Valid second byte after a four-byte leader (excludes overlong
encodings and codepoints above U+10FFFF). -/
def cont4ok (b b2 : Nat) : Bool :=
  if b = 0xF0 then 0x90 ≤ b2 && b2 ≤ 0xBF
  else if b = 0xF4 then 0x80 ≤ b2 && b2 ≤ 0x8F
  else isCont b2

/-- One UTF-8 decoding step on lead byte b with following bytes rest:
either (some c, k) — a valid sequence decodes to c, consuming k bytes
of rest beyond the lead — or (none, k) — an invalid or truncated
sequence whose maximal subpart is the lead plus k bytes of rest, all
of which the "ignore" handler drops. -/
def utf8Step (b : Nat) (rest : List Nat) : Option Char × Nat :=
  if b ≤ 0x7F then (some (Char.ofNat b), 0)
  else if 0xC2 ≤ b && b ≤ 0xDF then
    match rest with
    | [] => (none, 0)
    | b2 :: _ =>
      if isCont b2 then (some (Char.ofNat ((b - 0xC0) * 0x40 + (b2 - 0x80))), 1)
      else (none, 0)
  else if 0xE0 ≤ b && b ≤ 0xEF then
    match rest with
    | [] => (none, 0)
    | b2 :: rest2 =>
      if cont3ok b b2 then
        match rest2 with
        | [] => (none, 1)
        | b3 :: _ =>
          if isCont b3 then
            (some (Char.ofNat ((b - 0xE0) * 0x1000 + (b2 - 0x80) * 0x40 + (b3 - 0x80))), 2)
          else (none, 1)
      else (none, 0)
  else if 0xF0 ≤ b && b ≤ 0xF4 then
    match rest with
    | [] => (none, 0)
    | b2 :: rest2 =>
      if cont4ok b b2 then
        match rest2 with
        | [] => (none, 1)
        | b3 :: rest3 =>
          if isCont b3 then
            match rest3 with
            | [] => (none, 2)
            | b4 :: _ =>
              if isCont b4 then
                (some (Char.ofNat ((b - 0xF0) * 0x40000 + (b2 - 0x80) * 0x1000
                    + (b3 - 0x80) * 0x40 + (b4 - 0x80))), 3)
              else (none, 2)
          else (none, 1)
      else (none, 0)
  else (none, 0)

/-- Worker for utf8Ignore.  Each step consumes at least the lead byte,
so fuel equal to the length of the byte list never runs out. -/
def utf8IgnoreFuel : Nat → List Nat → List Char
  | 0, _ => []
  | _, [] => []
  | fuel + 1, b :: rest =>
    match utf8Step b rest with
    | (some c, k) => c :: utf8IgnoreFuel fuel (rest.drop k)
    | (none, k) => utf8IgnoreFuel fuel (rest.drop k)

/-- bytes.decode("utf-8", errors="ignore"): valid sequences are
decoded, invalid or truncated sequences are dropped (no replacement
character is inserted). -/
def utf8Ignore (l : List Nat) : List Char := utf8IgnoreFuel l.length l

/-- e.output.decode(errors="ignore") as a String. -/
def decodeUtf8Ignore (l : List Nat) : String := String.mk (utf8Ignore l)

/-! ### The orchestrator: handle_build_upload (server.py lines 86-129)

The body is linear, so we embed it in three stages mirroring the
source order — parameter extraction (lines 88-90), project resolution
(lines 93-107), the two external commands (lines 110-123) — each
returning an Except value plus the events it performed, and wrap the
whole thing in the try/except boundary of lines 87/125/128. -/

/-- Lines 88-90: board = arguments["board_id"] (KeyError if absent),
port = arguments.get("port", "/dev/ttyUSB0"),
baud = int(arguments.get("baud", 115200)). -/
def extractParams (arguments : Args) : Except PyError (Value × Value × Int) :=
  match Args.get? arguments "board_id" with
  | none => .error (.keyError "board_id")
  | some board =>
    let port := Args.getD arguments "port" (.str "/dev/ttyUSB0")
    match pyInt (Args.getD arguments "baud" (.int 115200)) with
    | .error e => .error e
    | .ok baud => .ok (board, port, baud)

/-- Lines 93-107: determine the project source.  A truthy project_dir
is resolved and must contain platformio.ini; otherwise both
platformio_ini and src must be truthy and are written into a fresh
temporary directory.  Returns the project path and the filesystem
events, in order.  Path(project_dir) on a non-string, and write_text
of a non-string, raise TypeError as in CPython. -/
def resolveProject (arguments : Args) (w : World) : Except PyError String × List Event :=
  let pd := Args.get? arguments "project_dir"
  if optTruthy pd then
    match pd with
    | some (.str s) =>
      let projectPath := w.resolvePath s
      if !w.pathExists projectPath then
        (.error (.fileNotFoundError ("platformio.ini not found in: " ++ projectPath)),
         [.checkExists projectPath false])
      else if !w.pathExists (projectPath ++ "/platformio.ini") then
        (.error (.fileNotFoundError ("platformio.ini not found in: " ++ projectPath)),
         [.checkExists projectPath true,
          .checkExists (projectPath ++ "/platformio.ini") false])
      else
        (.ok projectPath,
         [.checkExists projectPath true,
          .checkExists (projectPath ++ "/platformio.ini") true])
    | _ =>
      (.error (.typeError "argument should be a str or an os.PathLike object"), [])
  else
    let ini := Args.get? arguments "platformio_ini"
    let src := Args.get? arguments "src"
    if !optTruthy ini || !optTruthy src then
      (.error (.valueError "Either project_dir or both platformio_ini and src must be provided."), [])
    else
      let tmp := w.tmpdir
      match ini, src with
      | some (.str iniS), some (.str srcS) =>
        (.ok tmp,
         [.mkdtemp tmp, .mkdir (tmp ++ "/src"),
          .writeFile (tmp ++ "/platformio.ini") iniS,
          .writeFile (tmp ++ "/src/main.cpp") srcS])
      | some (.str iniS), _ =>
        (.error (.typeError "data must be str, not int"),
         [.mkdtemp tmp, .mkdir (tmp ++ "/src"),
          .writeFile (tmp ++ "/platformio.ini") iniS])
      | _, _ =>
        (.error (.typeError "data must be str, not int"),
         [.mkdtemp tmp, .mkdir (tmp ++ "/src")])

/-- Lines 110-121: run the build command via subprocess.check_output
(capturing combined output; nonzero exit raises CalledProcessError
carrying the bytes), then the upload command via subprocess.check_call
(nonzero exit raises CalledProcessError whose output is None), then
the success segment of line 123.  A non-string board or port makes the
" ".join in the logging call raise TypeError, before the corresponding
command runs. -/
def runPhase (projectPath : String) (board port : Value) (w : World) :
    Except PyError (List TextContent) × List Event :=
  match board with
  | .int _ => (.error (.typeError "sequence item 5: expected str instance, int found"), [])
  | .str boardS =>
    let buildCmd := ["pio", "run", "-d", projectPath, "-e", boardS]
    let r := w.runCheckOutput buildCmd
    let ev1 := Event.runCheckOutput buildCmd r.1 r.2
    if r.1 ≠ 0 then
      (.error (.calledProcessError r.1 buildCmd (some r.2)), [ev1])
    else
      match port with
      | .int _ => (.error (.typeError "sequence item 9: expected str instance, int found"), [ev1])
      | .str portS =>
        let uploadCmd := ["pio", "run", "-d", projectPath,
                          "-e", boardS, "-t", "upload", "--upload-port", portS]
        let code2 := w.runCheckCall uploadCmd
        let ev2 := Event.runCheckCall uploadCmd code2
        if code2 ≠ 0 then
          (.error (.calledProcessError code2 uploadCmd none), [ev1, ev2])
        else
          (.ok [⟨"text", "✅ Build & Upload completed!"⟩], [ev1, ev2])

/-- The try-block body, lines 88-123, in source order. -/
def handleCore (arguments : Args) (w : World) :
    Except PyError (List TextContent) × List Event :=
  match extractParams arguments with
  | .error e => (.error e, [])
  | .ok (board, port, _baud) =>
    match resolveProject arguments w with
    | (.error e, tr) => (.error e, tr)
    | (.ok projectPath, tr) =>
      let r := runPhase projectPath board port w
      (r.1, tr ++ r.2)

/-- The except clauses, lines 125-129.  The CalledProcessError clause
evaluates e.output.decode(...): when the error came from check_call
its output is None, and None.decode raises an AttributeError which —
being raised inside the except handler itself — propagates out of the
function (the sibling "except Exception" clause does not cover it).
Every other exception becomes the generic unexpected-error segment. -/
def toOutcome : Except PyError (List TextContent) → Outcome
  | .ok segs => .segments segs
  | .error (.calledProcessError _ _ (some out)) =>
      .segments [⟨"text", "❌ Build or Upload Error:\n" ++ decodeUtf8Ignore out⟩]
  | .error (.calledProcessError _ _ none) =>
      .raised (.attributeError "\x27NoneType\x27 object has no attribute \x27decode\x27")
  | .error e => .segments [⟨"text", "❌ Unexpected error: " ++ PyError.toStr e⟩]

/-- handle_build_upload (server.py lines 86-129). -/
def handle_build_upload (arguments : Args) (w : World) : Outcome × List Event :=
  let r := handleCore arguments w
  (toOutcome r.1, r.2)

/-! ### The dispatcher: call_tool (server.py lines 63-80) -/

/-- The fixed text returned for check_connection_guide (lines 69-77). -/
def guideText : String :=
  "ℹ️ This tool is designed to suggest how to connect your board and module.\n" ++
  "Please wait while the AI composes a connection guide, or try describing the hardware in more detail."

/-- call_tool: route build_upload to the orchestrator, answer
check_connection_guide with the fixed segment, raise ValueError on any
other name (line 80). -/
def call_tool (name : String) (arguments : Args) (w : World) : Outcome × List Event :=
  if name = "build_upload" then handle_build_upload arguments w
  else if name = "check_connection_guide" then
    (.segments [⟨"text", guideText⟩], [])
  else
    (.raised (.valueError ("unknown tool " ++ name)), [])

/-! ### The tool registry: list_tools (server.py lines 19-57) -/

/-- One property of a JSON-schema object: its name, declared type, and
optional description and default, as written in the inputSchema
literals. -/
structure SchemaProperty where
  name : String
  type : String
  descr : Option String
  dflt : Option Value
deriving DecidableEq, Repr

/-- The inputSchema literal of a Tool. -/
structure InputSchema where
  type : String
  properties : List SchemaProperty
  required : List String
deriving DecidableEq, Repr

/-- mcp.types.Tool as constructed in list_tools. -/
structure Tool where
  name : String
  descr : String
  inputSchema : InputSchema
deriving DecidableEq, Repr

/-- list_tools (server.py lines 19-57): the static registry of the two
tools, transcribed field by field. -/
def list_tools : List Tool :=
  [ { name := "build_upload"
    , descr :=
        "Build and flash a microcontroller using either an existing PlatformIO project (project_dir), " ++
        "or by providing both platformio_ini and main.cpp source code."
    , inputSchema :=
      { type := "object"
      , properties :=
        [ ⟨"board_id", "string", some "e.g., esp32dev, uno", none⟩
        , ⟨"project_dir", "string", some "Path to an existing PlatformIO project (optional)", none⟩
        , ⟨"platformio_ini", "string", some "Contents of platformio.ini (required if project_dir not provided)", none⟩
        , ⟨"src", "string", some "Contents of main.cpp (required if project_dir not provided)", none⟩
        , ⟨"port", "string", some "e.g., /dev/ttyUSB0", some (.str "/dev/ttyUSB0")⟩
        , ⟨"baud", "integer", none, some (.int 115200)⟩ ]
      , required := ["board_id"] } }
  , { name := "check_connection_guide"
    , descr :=
        "Given a board_id (e.g., seeed_xiao_esp32c3) and a module (e.g., BME280), " ++
        "the LLM should respond with a pin connection guide. " ++
        "If the combination is unknown, search the internet or use known patterns to make a best effort guess."
    , inputSchema :=
      { type := "object"
      , properties :=
        [ ⟨"board_id", "string", none, none⟩
        , ⟨"module", "string", some "e.g. BME280, OLED SSD1306, etc.", none⟩ ]
      , required := ["board_id", "module"] } } ]

/-- dict update d[k] = v, modelled on the association list as removing
every binding of k and appending the new one (lookups are keyed, so
the position of the binding is irrelevant). -/
def Args.setKey (a : Args) (k : String) (v : Value) : Args :=
  (List.filter (fun kv => !(kv.1 == k)) a) ++ [(k, v)]

/-! ### Concrete fixtures used by witnesses and counterexamples -/

/-- A world in which every path exists and both commands succeed; the
build output is the bytes of "ok". -/
def wOK : World :=
  { resolvePath := fun s => "/abs" ++ s
  , pathExists := fun _ => true
  , tmpdir := "/tmp/proj"
  , runCheckOutput := fun _ => (0, [111, 107])
  , runCheckCall := fun _ => 0 }

/-- wOK, except the build command exits 1 with output the bytes of
"bad". -/
def wBuildFail : World := { wOK with runCheckOutput := fun _ => (1, [98, 97, 100]) }

/-- wOK, except the upload command exits 2. -/
def wUploadFail : World := { wOK with runCheckCall := fun _ => 2 }

/-- wOK, except no path exists. -/
def wEmptyFs : World := { wOK with pathExists := fun _ => false }

/-- Arguments selecting an existing project directory. -/
def argsProj : Args := [("board_id", .str "esp32dev"), ("project_dir", .str "/p")]

/-- Arguments carrying an inline platformio.ini / src pair. -/
def argsInline : Args :=
  [("board_id", .str "esp32dev"),
   ("platformio_ini", .str "[env:esp32dev]\nplatform=espressif32"),
   ("src", .str "void setup()\x7b\x7d void loop()\x7b\x7d"),
   ("port", .str "/dev/ttyUSB0")]

/-! ### Helper lemmas about the three stages -/

/-- Project resolution performs no external command invocation. -/
lemma resolveProject_no_run (arguments : Args) (w : World) :
    ∀ e ∈ (resolveProject arguments w).2, e.isRun = false := by
  intro e he
  rcases hc : resolveProject arguments w with ⟨r, tr⟩
  rw [hc] at he
  simp only [Prod.snd] at he
  unfold resolveProject at hc
  dsimp only at hc
  repeat' split at hc
  all_goals simp only [Prod.mk.injEq] at hc
  all_goals obtain ⟨h1, h2⟩ := hc
  all_goals subst h2
  all_goals simp only [List.mem_cons, List.not_mem_nil, or_false, List.mem_singleton] at he
  all_goals first
    | exact he.elim
    | (rcases he with rfl | rfl | rfl | rfl <;> rfl)
    | (rcases he with rfl | rfl <;> rfl)
    | (subst he; rfl)

/-- Every event of the command phase is an external command invocation. -/
lemma runPhase_all_run (p : String) (board port : Value) (w : World) :
    ∀ e ∈ (runPhase p board port w).2, e.isRun = true := by
  intro e he
  rcases hc : runPhase p board port w with ⟨r, tr⟩
  rw [hc] at he
  simp only [Prod.snd] at he
  unfold runPhase at hc
  dsimp only at hc
  repeat' split at hc
  all_goals simp only [Prod.mk.injEq] at hc
  all_goals obtain ⟨h1, h2⟩ := hc
  all_goals subst h2
  all_goals simp only [List.mem_cons, List.not_mem_nil, or_false, List.mem_singleton] at he
  all_goals first
    | exact he.elim
    | (rcases he with rfl | rfl <;> rfl)
    | (subst he; rfl)

/-- Every command the command phase invokes is the build command of
line 110 or the upload command of lines 115-119: six respectively ten
fixed words determined by the project path, the board and the port. -/
lemma runPhase_cmd_shapes (p : String) (board port : Value) (w : World) :
    ∀ e ∈ (runPhase p board port w).2,
      (∃ bs code out, e = Event.runCheckOutput ["pio", "run", "-d", p, "-e", bs] code out) ∨
      (∃ bs ps code, e = Event.runCheckCall
          ["pio", "run", "-d", p, "-e", bs, "-t", "upload", "--upload-port", ps] code) := by
  intro e he
  rcases hc : runPhase p board port w with ⟨r, tr⟩
  rw [hc] at he
  simp only [Prod.snd] at he
  unfold runPhase at hc
  dsimp only at hc
  repeat' split at hc
  all_goals simp only [Prod.mk.injEq] at hc
  all_goals obtain ⟨h1, h2⟩ := hc
  all_goals subst h2
  all_goals simp only [List.mem_cons, List.not_mem_nil, or_false, List.mem_singleton] at he
  all_goals first
    | exact he.elim
    | (rcases he with rfl | rfl
       · exact Or.inl ⟨_, _, _, rfl⟩
       · exact Or.inr ⟨_, _, _, rfl⟩)
    | (subst he; exact Or.inl ⟨_, _, _, rfl⟩)

/-- If the command phase recorded a build invocation with nonzero exit
status, it stopped there: its only event is that invocation and its
result is the CalledProcessError carrying the captured output. -/
lemma runPhase_build_fail (p : String) (board port : Value) (w : World)
    (cmd : List String) (code : Int) (out : List Nat)
    (hmem : Event.runCheckOutput cmd code out ∈ (runPhase p board port w).2)
    (hcode : code ≠ 0) :
    runPhase p board port w =
      (.error (.calledProcessError code cmd (some out)),
       [Event.runCheckOutput cmd code out]) := by
  rcases hc : runPhase p board port w with ⟨r, tr⟩
  rw [hc] at hmem
  simp only [Prod.snd] at hmem
  unfold runPhase at hc
  dsimp only at hc
  repeat' split at hc
  all_goals simp only [Prod.mk.injEq] at hc
  all_goals obtain ⟨h1, h2⟩ := hc
  all_goals subst h2
  all_goals simp only [List.mem_cons, List.not_mem_nil, or_false, List.mem_singleton,
    Event.runCheckOutput.injEq] at hmem
  all_goals simp_all

/-- The try-block analysis behind C2: a recorded nonzero build exit
determines the try-block result and rules out any check_call event. -/
lemma handleCore_build_fail (arguments : Args) (w : World)
    (cmd : List String) (code : Int) (out : List Nat)
    (hmem : Event.runCheckOutput cmd code out ∈ (handleCore arguments w).2)
    (hcode : code ≠ 0) :
    (handleCore arguments w).1 = .error (.calledProcessError code cmd (some out)) ∧
    (∀ c k, Event.runCheckCall c k ∉ (handleCore arguments w).2) := by
  unfold handleCore at hmem ⊢
  cases hx : extractParams arguments with
  | error e => rw [hx] at hmem; simp at hmem
  | ok t =>
    obtain ⟨board, port, baud⟩ := t
    rw [hx] at hmem
    dsimp only at hmem ⊢
    have hnorun := resolveProject_no_run arguments w
    obtain ⟨rres, tr, hr⟩ : ∃ rres tr, resolveProject arguments w = (rres, tr) :=
      ⟨_, _, rfl⟩
    rw [hr] at hmem hnorun ⊢
    simp only [Prod.snd] at hnorun
    cases rres with
    | error e =>
      dsimp only at hmem ⊢
      have := hnorun _ hmem
      simp [Event.isRun] at this
    | ok path =>
      dsimp only at hmem ⊢
      rcases List.mem_append.1 hmem with hin | hin
      · have := hnorun _ hin
        simp [Event.isRun] at this
      · have hrp := runPhase_build_fail path board port w cmd code out hin hcode
        constructor
        · rw [hrp]
        · intro c k hck
          rcases List.mem_append.1 hck with h | h
          · have := hnorun _ h
            simp [Event.isRun] at this
          · rw [hrp] at h
            simp at h

/-- If the command phase recorded an upload invocation, its trace is
exactly a build invocation that exited 0 followed by that upload. -/
lemma runPhase_upload_after_build (p : String) (board port : Value) (w : World)
    (c : List String) (k : Int)
    (hmem : Event.runCheckCall c k ∈ (runPhase p board port w).2) :
    ∃ bc out, (runPhase p board port w).2 =
      [Event.runCheckOutput bc 0 out, Event.runCheckCall c k] := by
  obtain ⟨r, tr, hc⟩ : ∃ r tr, runPhase p board port w = (r, tr) := ⟨_, _, rfl⟩
  rw [hc] at hmem ⊢
  simp only [Prod.snd] at hmem ⊢
  unfold runPhase at hc
  dsimp only at hc
  repeat' split at hc
  all_goals simp only [Prod.mk.injEq] at hc
  all_goals obtain ⟨h1, h2⟩ := hc
  all_goals subst h2
  all_goals simp only [List.mem_cons, List.not_mem_nil, or_false, List.mem_singleton] at hmem
  all_goals first
    | exact hmem.elim
    | simp_all
    | (rcases hmem with hmem | hmem
       · exact absurd hmem (by simp)
       · exact ⟨_, _, by simp_all⟩)

/-- C2: the upload command is never invoked unless the build command
has already exited with status zero — every recorded upload
invocation is directly preceded by a zero-exit build invocation, with
nothing but non-command events before them — and whenever the build
command exited nonzero, no upload command was invoked and the returned
value is the single error segment containing the captured output of
the build command, decoded as text. -/
theorem build_failure_skips_upload (arguments : Args) (w : World) :
    ((∀ cmd code out,
        Event.runCheckOutput cmd code out ∈ (handle_build_upload arguments w).2 → code ≠ 0 →
        (∀ c k, Event.runCheckCall c k ∉ (handle_build_upload arguments w).2) ∧
        (handle_build_upload arguments w).1 =
          Outcome.segments [⟨"text", "❌ Build or Upload Error:\n" ++ decodeUtf8Ignore out⟩]) ∧
     (∀ c k, Event.runCheckCall c k ∈ (handle_build_upload arguments w).2 →
        ∃ tr0 bc out, (handle_build_upload arguments w).2 =
          tr0 ++ [Event.runCheckOutput bc 0 out, Event.runCheckCall c k] ∧
          ∀ e ∈ tr0, e.isRun = false)) := by
  constructor
  · intro cmd code out hmem hcode
    have h := handleCore_build_fail arguments w cmd code out hmem hcode
    refine ⟨h.2, ?_⟩
    show toOutcome (handleCore arguments w).1 = _
    rw [h.1]
    rfl
  · intro c k hmem
    unfold handle_build_upload handleCore at hmem ⊢
    cases hx : extractParams arguments with
    | error e => rw [hx] at hmem; simp at hmem
    | ok t =>
      obtain ⟨board, port, baud⟩ := t
      rw [hx] at hmem
      dsimp only at hmem ⊢
      have hnorun := resolveProject_no_run arguments w
      obtain ⟨rres, tr, hr⟩ : ∃ rres tr, resolveProject arguments w = (rres, tr) := ⟨_, _, rfl⟩
      rw [hr] at hmem hnorun ⊢
      simp only [Prod.snd] at hnorun
      cases rres with
      | error e =>
        dsimp only at hmem ⊢
        have := hnorun _ hmem
        simp [Event.isRun] at this
      | ok path =>
        dsimp only at hmem ⊢
        rcases List.mem_append.1 hmem with hin | hin
        · have := hnorun _ hin
          simp [Event.isRun] at this
        · obtain ⟨bc, out, htr⟩ := runPhase_upload_after_build path board port w c k hin
          exact ⟨tr, bc, out, by rw [htr], fun e he => hnorun e he⟩

/-- Witness for build_failure_skips_upload: with an existing project
and a build that exits 1 outputting "bad", the upload command is not
invoked and the result is the decoded error segment. -/
theorem build_failure_skips_upload_witness :
    (Event.runCheckCall ["pio", "run", "-d", "/abs/p", "-e", "esp32dev", "-t", "upload",
        "--upload-port", "/dev/ttyUSB0"] 0 ∉ (handle_build_upload argsProj wBuildFail).2) ∧
    (handle_build_upload argsProj wBuildFail).1 =
      Outcome.segments [⟨"text", "❌ Build or Upload Error:\n" ++ decodeUtf8Ignore [98, 97, 100]⟩] := by
  have h := (build_failure_skips_upload argsProj wBuildFail).1
      ["pio", "run", "-d", "/abs/p", "-e", "esp32dev"] 1 [98, 97, 100]
      (by decide) (by decide)
  exact ⟨h.1 _ _, h.2⟩

/-- C1: evaluation at the failing input.  With a valid project, the
build command exiting 0 and the upload command exiting 2, the
CalledProcessError raised by subprocess.check_call carries no output,
the except clause evaluates None.decode, and the resulting
AttributeError escapes handle_build_upload instead of a text segment
being returned — refuting "never raises past its own boundary". -/
theorem upload_failure_escapes_boundary :
    (handle_build_upload argsProj wUploadFail).1 =
      Outcome.raised (.attributeError "\x27NoneType\x27 object has no attribute \x27decode\x27") := by
  rfl

/-- C3: if parameter extraction yields a board string and a (supplied
or defaulted) port string, project resolution succeeds, and both
external commands exit zero, then handle_build_upload returns exactly
the one success segment, and the trace records the build command
pio run -d path -e board followed by the upload command
pio run -d path -e board -t upload --upload-port port. -/
theorem success_invokes_documented_commands (arguments : Args) (w : World)
    (bs ps path : String) (tr : List Event) (baud : Int) (out : List Nat)
    (hb : Args.get? arguments "board_id" = some (.str bs))
    (hp : Args.getD arguments "port" (.str "/dev/ttyUSB0") = .str ps)
    (hbaud : pyInt (Args.getD arguments "baud" (.int 115200)) = .ok baud)
    (hres : resolveProject arguments w = (.ok path, tr))
    (hbuild : w.runCheckOutput ["pio", "run", "-d", path, "-e", bs] = (0, out))
    (hupload : w.runCheckCall
        ["pio", "run", "-d", path, "-e", bs, "-t", "upload", "--upload-port", ps] = 0) :
    handle_build_upload arguments w =
      (Outcome.segments [⟨"text", "✅ Build & Upload completed!"⟩],
       tr ++ [Event.runCheckOutput ["pio", "run", "-d", path, "-e", bs] 0 out,
              Event.runCheckCall
                ["pio", "run", "-d", path, "-e", bs, "-t", "upload", "--upload-port", ps] 0]) := by
  simp [handle_build_upload, handleCore, extractParams, runPhase, toOutcome,
    hb, hp, hbaud, hres, hbuild, hupload]

/-- Witness for success_invokes_documented_commands at a concrete
project, board and defaulted port in a world where everything
succeeds. -/
theorem success_invokes_documented_commands_witness :
    handle_build_upload argsProj wOK =
      (Outcome.segments [⟨"text", "✅ Build & Upload completed!"⟩],
       [Event.checkExists "/abs/p" true, Event.checkExists "/abs/p/platformio.ini" true] ++
       [Event.runCheckOutput ["pio", "run", "-d", "/abs/p", "-e", "esp32dev"] 0 [111, 107],
        Event.runCheckCall ["pio", "run", "-d", "/abs/p", "-e", "esp32dev", "-t", "upload",
          "--upload-port", "/dev/ttyUSB0"] 0]) :=
  success_invokes_documented_commands argsProj wOK "esp32dev" "/dev/ttyUSB0" "/abs/p"
    [Event.checkExists "/abs/p" true, Event.checkExists "/abs/p/platformio.ini" true]
    115200 [111, 107] rfl rfl rfl rfl rfl rfl

/-- C6: dispatching any tool name other than build_upload and
check_connection_guide raises a ValueError carrying the offending
name, propagated to the transport layer rather than returned as a
text result. -/
theorem unknown_tool_raises (toolName : String) (arguments : Args) (w : World)
    (h1 : toolName ≠ "build_upload") (h2 : toolName ≠ "check_connection_guide") :
    call_tool toolName arguments w =
      (Outcome.raised (.valueError ("unknown tool " ++ toolName)), []) := by
  unfold call_tool
  rw [if_neg h1, if_neg h2]

/-- Witness for unknown_tool_raises at the example name of the spec. -/
theorem unknown_tool_raises_witness :
    call_tool "nonexistent_tool" [] wOK =
      (Outcome.raised (.valueError ("unknown tool " ++ "nonexistent_tool")), []) :=
  unknown_tool_raises "nonexistent_tool" [] wOK (by decide) (by decide)

/-- C7: the registry always returns exactly the two documented
descriptors — build_upload requiring only board_id, with port
defaulting to /dev/ttyUSB0 and baud defaulting to 115200, and
check_connection_guide requiring board_id and module; list_tools is a
constant, so every call returns this same value and has no side
effects. -/
theorem list_tools_two_fixed_descriptors :
    List.length list_tools = 2 ∧
    list_tools.map Tool.name = ["build_upload", "check_connection_guide"] ∧
    list_tools.map (fun t => t.inputSchema.required) = [["board_id"], ["board_id", "module"]] ∧
    list_tools.map (fun t => t.inputSchema.properties.map (fun pr => (pr.name, pr.dflt))) =
      [[("board_id", none), ("project_dir", none), ("platformio_ini", none), ("src", none),
        ("port", some (Value.str "/dev/ttyUSB0")), ("baud", some (Value.int 115200))],
       [("board_id", none), ("module", none)]] :=
  ⟨rfl, rfl, rfl, rfl⟩

/-- C8: dispatching check_connection_guide returns exactly one fixed
informational segment, identical for every argument mapping and every
world. -/
theorem check_connection_guide_fixed (arguments : Args) (w : World) :
    call_tool "check_connection_guide" arguments w =
      (Outcome.segments [⟨"text", guideText⟩], []) := by
  rfl

/-! ### Lookup lemmas for the argument mapping -/

/-- Unfolding lookup over a cons cell. -/
lemma get?_cons (hd : String × Value) (tl : Args) (k : String) :
    Args.get? (hd :: tl) k = if hd.1 == k then some hd.2 else Args.get? tl k := by
  unfold Args.get?
  by_cases h : hd.1 == k
  · simp [List.find?_cons_of_pos, h]
  · simp [List.find?_cons_of_neg, h]

/-- Removing the bindings of one key leaves the lookup of every
other key unchanged. -/
lemma get?_filterNe (a : Args) (k k0 : String) (hkk : k ≠ k0) :
    Args.get? (List.filter (fun kv => !(kv.1 == k0)) a) k = Args.get? a k := by
  induction a with
  | nil => rfl
  | cons hd tl ih =>
    by_cases h0 : hd.1 = k0
    · have hcond : (!(hd.1 == k0)) = false := by simp [h0]
      have hk : (hd.1 == k) = false := by
        simp [h0]
        exact fun hh => hkk hh.symm
      simp only [List.filter_cons, hcond, if_false, Bool.false_eq_true]
      rw [ih, get?_cons, hk]
      simp
    · have hcond : (!(hd.1 == k0)) = true := by simp [h0]
      simp only [List.filter_cons, hcond, if_true]
      rw [get?_cons, get?_cons, ih]

/-- Removing the bindings of a key makes its lookup return none. -/
lemma get?_filter_self (a : Args) (k0 : String) :
    Args.get? (List.filter (fun kv => !(kv.1 == k0)) a) k0 = none := by
  induction a with
  | nil => rfl
  | cons hd tl ih =>
    by_cases h0 : hd.1 = k0
    · have hcond : (!(hd.1 == k0)) = false := by simp [h0]
      simp only [List.filter_cons, hcond, if_false, Bool.false_eq_true]
      exact ih
    · have hcond : (!(hd.1 == k0)) = true := by simp [h0]
      have hk : (hd.1 == k0) = false := by simp [h0]
      simp only [List.filter_cons, hcond, if_true]
      rw [get?_cons, hk, ih]
      simp

/-- Lookup distributes over append, preferring the first list. -/
lemma get?_append (l1 l2 : Args) (k : String) :
    Args.get? (l1 ++ l2) k =
      match Args.get? l1 k with
      | some v => some v
      | none => Args.get? l2 k := by
  induction l1 with
  | nil => rfl
  | cons hd tl ih =>
    by_cases hk : (hd.1 == k)
    · rw [List.cons_append, get?_cons, get?_cons, hk]
      rfl
    · have hk2 : (hd.1 == k) = false := by simpa using hk
      rw [List.cons_append, get?_cons, get?_cons, hk2, ih]
      simp

/-- Updating one key leaves the lookup of every other key unchanged. -/
lemma get?_setKey_ne (a : Args) (k k0 : String) (v : Value) (hkk : k ≠ k0) :
    Args.get? (Args.setKey a k0 v) k = Args.get? a k := by
  unfold Args.setKey
  rw [get?_append, get?_filterNe a k k0 hkk]
  cases h : Args.get? a k with
  | none =>
    have hk : ((k0, v).1 == k) = false := by
      simp
      exact fun hh => hkk hh.symm
    rw [get?_cons, hk]
    simp [Args.get?]
  | some v2 => rfl

/-- Lookup of an updated key returns the new value. -/
lemma get?_setKey_self (a : Args) (k0 : String) (v : Value) :
    Args.get? (Args.setKey a k0 v) k0 = some v := by
  unfold Args.setKey
  rw [get?_append, get?_filter_self]
  rw [get?_cons]
  simp

/-! ### Characterizations of project resolution -/

/-- Lines 98-102: with no truthy project_dir and an incomplete inline
pair, resolution raises the ValueError of line 102 and touches
nothing. -/
lemma resolveProject_missing_source (a : Args) (w : World)
    (hpd : optTruthy (Args.get? a "project_dir") = false)
    (hmiss : optTruthy (Args.get? a "platformio_ini") = false ∨
             optTruthy (Args.get? a "src") = false) :
    resolveProject a w =
      (.error (.valueError "Either project_dir or both platformio_ini and src must be provided."), []) := by
  unfold resolveProject
  dsimp only
  rw [hpd]
  rcases hmiss with h | h <;> simp [h]

/-- Lines 94-97: a truthy project_dir naming a path that is missing or
lacks platformio.ini makes resolution raise the FileNotFoundError of
line 97, whose message names the resolved path. -/
lemma resolveProject_missing_ini (a : Args) (w : World) (s : String)
    (hpd : Args.get? a "project_dir" = some (.str s)) (hs : s ≠ "")
    (hmiss : w.pathExists (w.resolvePath s) = false ∨
             w.pathExists (w.resolvePath s ++ "/platformio.ini") = false) :
    (resolveProject a w).1 =
      .error (.fileNotFoundError ("platformio.ini not found in: " ++ w.resolvePath s)) := by
  unfold resolveProject
  dsimp only
  rw [hpd]
  have ht : optTruthy (some (Value.str s)) = true := by
    simp [optTruthy, Value.truthy, hs]
  rw [ht]
  by_cases h1 : w.pathExists (w.resolvePath s)
  · rcases hmiss with h | h
    · rw [h1] at h; exact absurd h (by simp)
    · simp [h1, h]
  · simp at h1
    simp [h1]

/-- Lines 103-107: with no truthy project_dir and a complete inline
pair, resolution creates the temporary directory, the src
subdirectory, and writes both files verbatim, in this order. -/
lemma resolveProject_inline (a : Args) (w : World) (iniS srcS : String)
    (hpd : optTruthy (Args.get? a "project_dir") = false)
    (hini : Args.get? a "platformio_ini" = some (.str iniS)) (hiniNe : iniS ≠ "")
    (hsrc : Args.get? a "src" = some (.str srcS)) (hsrcNe : srcS ≠ "") :
    resolveProject a w =
      (.ok w.tmpdir,
       [Event.mkdtemp w.tmpdir, Event.mkdir (w.tmpdir ++ "/src"),
        Event.writeFile (w.tmpdir ++ "/platformio.ini") iniS,
        Event.writeFile (w.tmpdir ++ "/src/main.cpp") srcS]) := by
  unfold resolveProject
  dsimp only
  rw [hpd, hini, hsrc]
  simp [optTruthy, Value.truthy, hiniNe, hsrcNe]

/-- Resolution with a falsy project_dir only reads platformio_ini and
src: two argument mappings that are falsy on project_dir and agree on
those two keys resolve identically. -/
lemma resolveProject_falsy_congr (a1 a2 : Args) (w : World)
    (h1 : optTruthy (Args.get? a1 "project_dir") = false)
    (h2 : optTruthy (Args.get? a2 "project_dir") = false)
    (hini : Args.get? a1 "platformio_ini" = Args.get? a2 "platformio_ini")
    (hsrc : Args.get? a1 "src" = Args.get? a2 "src") :
    resolveProject a1 w = resolveProject a2 w := by
  unfold resolveProject
  dsimp only
  rw [h1, h2, hini, hsrc]
  simp

/-- Resolution reads only the keys project_dir, platformio_ini and
src of the argument mapping. -/
lemma resolveProject_keys (a1 a2 : Args) (w : World)
    (hpd : Args.get? a1 "project_dir" = Args.get? a2 "project_dir")
    (hini : Args.get? a1 "platformio_ini" = Args.get? a2 "platformio_ini")
    (hsrc : Args.get? a1 "src" = Args.get? a2 "src") :
    resolveProject a1 w = resolveProject a2 w := by
  unfold resolveProject
  dsimp only
  rw [hpd, hini, hsrc]

/-- Extraction reads only the keys board_id, port and baud. -/
lemma extractParams_keys (a1 a2 : Args)
    (hb : Args.get? a1 "board_id" = Args.get? a2 "board_id")
    (hp : Args.get? a1 "port" = Args.get? a2 "port")
    (hbaud : Args.get? a1 "baud" = Args.get? a2 "baud") :
    extractParams a1 = extractParams a2 := by
  unfold extractParams Args.getD
  rw [hb, hp, hbaud]

/-- Every event of a handle_build_upload trace comes either from
project resolution or from the command phase at some project path. -/
lemma handleCore_trace_split (arguments : Args) (w : World) :
    ∀ e ∈ (handleCore arguments w).2,
      e ∈ (resolveProject arguments w).2 ∨
      ∃ path board port, e ∈ (runPhase path board port w).2 := by
  intro e he
  unfold handleCore at he
  cases hx : extractParams arguments with
  | error e2 => rw [hx] at he; simp at he
  | ok t =>
    obtain ⟨board, port, baud⟩ := t
    rw [hx] at he
    dsimp only at he
    obtain ⟨rres, tr, hr⟩ : ∃ rres tr, resolveProject arguments w = (rres, tr) := ⟨_, _, rfl⟩
    rw [hr] at he ⊢
    cases rres with
    | error e2 =>
      dsimp only at he ⊢
      exact Or.inl he
    | ok path =>
      dsimp only at he ⊢
      rcases List.mem_append.1 he with h | h
      · exact Or.inl h
      · exact Or.inr ⟨path, board, port, h⟩

/-- C4: when project resolution fails — extraction having succeeded,
either no truthy project_dir and an incomplete inline pair, or a
supplied project_dir lacking platformio.ini directly inside it — the
handler returns exactly one text segment describing the missing
project source (naming the resolved path in the missing-configuration
case), raises nothing, and invokes no external process. -/
theorem resolution_failure_single_segment (arguments : Args) (w : World)
    (board port : Value) (baud : Int)
    (hext : extractParams arguments = .ok (board, port, baud)) :
    ((optTruthy (Args.get? arguments "project_dir") = false →
      (optTruthy (Args.get? arguments "platformio_ini") = false ∨
       optTruthy (Args.get? arguments "src") = false) →
      handle_build_upload arguments w =
        (Outcome.segments [⟨"text",
          "❌ Unexpected error: Either project_dir or both platformio_ini and src must be provided."⟩], [])) ∧
     (∀ s, Args.get? arguments "project_dir" = some (Value.str s) → s ≠ "" →
      (w.pathExists (w.resolvePath s) = false ∨
       w.pathExists (w.resolvePath s ++ "/platformio.ini") = false) →
      (handle_build_upload arguments w).1 =
        Outcome.segments [⟨"text",
          "❌ Unexpected error: platformio.ini not found in: " ++ w.resolvePath s⟩] ∧
      ∀ e ∈ (handle_build_upload arguments w).2, e.isRun = false)) := by
  constructor
  · intro hpd hmiss
    have hres := resolveProject_missing_source arguments w hpd hmiss
    unfold handle_build_upload handleCore
    rw [hext, hres]
    rfl
  · intro s hpd hs hmiss
    have hres1 := resolveProject_missing_ini arguments w s hpd hs hmiss
    have hnorun := resolveProject_no_run arguments w
    obtain ⟨rres, tr, hr⟩ : ∃ rres tr, resolveProject arguments w = (rres, tr) := ⟨_, _, rfl⟩
    rw [hr] at hres1 hnorun
    simp only [Prod.fst, Prod.snd] at hres1 hnorun
    subst hres1
    constructor
    · show toOutcome (handleCore arguments w).1 = _
      unfold handleCore
      rw [hext, hr]
      rfl
    · intro e he
      have he2 : e ∈ tr := by
        unfold handle_build_upload handleCore at he
        rw [hext, hr] at he
        exact he
      exact hnorun e he2

/-- Witness for resolution_failure_single_segment: a call with only a
board_id yields the missing-source segment and runs nothing; a call
naming a project directory in a world without that path yields the
segment naming the resolved path. -/
theorem resolution_failure_single_segment_witness :
    (handle_build_upload [("board_id", Value.str "uno")] wOK =
      (Outcome.segments [⟨"text",
        "❌ Unexpected error: Either project_dir or both platformio_ini and src must be provided."⟩], [])) ∧
    ((handle_build_upload argsProj wEmptyFs).1 =
      Outcome.segments [⟨"text",
        "❌ Unexpected error: platformio.ini not found in: " ++ wEmptyFs.resolvePath "/p"⟩]) := by
  have h1 := resolution_failure_single_segment [("board_id", Value.str "uno")] wOK
      (Value.str "uno") (Value.str "/dev/ttyUSB0") 115200 rfl
  have h2 := resolution_failure_single_segment argsProj wEmptyFs
      (Value.str "esp32dev") (Value.str "/dev/ttyUSB0") 115200 rfl
  exact ⟨h1.1 rfl (Or.inl rfl), (h2.2 "/p" rfl (by decide) (Or.inl rfl)).1⟩

/-- C5 counterexample: an argument mapping supplying both
platformio_ini and src non-empty and no project_dir on which
handle_build_upload stages nothing — no temporary directory is created
and no file is written (the trace is empty), because the board_id
lookup of line 88 raises KeyError before project resolution. -/
theorem inline_pair_without_board_stages_nothing :
    handle_build_upload
        [("platformio_ini", Value.str "[env:uno]"), ("src", Value.str "int x;")] wOK =
      (Outcome.segments [⟨"text", "❌ Unexpected error: \x27board_id\x27"⟩], []) := by
  rfl

/-- C5 (amended): for every invocation supplying both platformio_ini
and src non-empty and no truthy project_dir, in which the preceding
parameter extraction succeeds (board_id present; baud absent or
coercible), handle_build_upload creates the fresh temporary directory
with platformio.ini at its root holding exactly the supplied
platformio_ini string and src/main.cpp beneath it holding exactly the
supplied src string, and every later event is an external command
invocation — so the staging completes before any external command
runs. -/
theorem inline_pair_staged_before_commands (arguments : Args) (w : World)
    (board port : Value) (baud : Int) (iniS srcS : String)
    (hext : extractParams arguments = .ok (board, port, baud))
    (hpd : optTruthy (Args.get? arguments "project_dir") = false)
    (hini : Args.get? arguments "platformio_ini" = some (Value.str iniS)) (hiniNe : iniS ≠ "")
    (hsrc : Args.get? arguments "src" = some (Value.str srcS)) (hsrcNe : srcS ≠ "") :
    (handle_build_upload arguments w).2 =
      [Event.mkdtemp w.tmpdir, Event.mkdir (w.tmpdir ++ "/src"),
       Event.writeFile (w.tmpdir ++ "/platformio.ini") iniS,
       Event.writeFile (w.tmpdir ++ "/src/main.cpp") srcS] ++
      (runPhase w.tmpdir board port w).2 ∧
    (∀ e ∈ (runPhase w.tmpdir board port w).2, e.isRun = true) := by
  have hres := resolveProject_inline arguments w iniS srcS hpd hini hiniNe hsrc hsrcNe
  constructor
  · show (handleCore arguments w).2 = _
    unfold handleCore
    rw [hext, hres]
  · exact runPhase_all_run w.tmpdir board port w

/-- Witness for inline_pair_staged_before_commands at the example
scenario of the spec: the staged trace of the inline project. -/
theorem inline_pair_staged_before_commands_witness :
    (handle_build_upload argsInline wOK).2 =
      [Event.mkdtemp wOK.tmpdir, Event.mkdir (wOK.tmpdir ++ "/src"),
       Event.writeFile (wOK.tmpdir ++ "/platformio.ini") "[env:esp32dev]\nplatform=espressif32",
       Event.writeFile (wOK.tmpdir ++ "/src/main.cpp") "void setup()\x7b\x7d void loop()\x7b\x7d"] ++
      (runPhase wOK.tmpdir (Value.str "esp32dev") (Value.str "/dev/ttyUSB0") wOK).2 :=
  (inline_pair_staged_before_commands argsInline wOK
    (Value.str "esp32dev") (Value.str "/dev/ttyUSB0") 115200
    "[env:esp32dev]\nplatform=espressif32" "void setup()\x7b\x7d void loop()\x7b\x7d"
    rfl rfl rfl (by decide) rfl (by decide)).1

/-- C9: baud is extracted with default 115200 and coerced with int();
a non-numeric baud fails before any external command runs (the trace
is empty and the result is the generic error segment); every external
command actually invoked is one of the two fixed shapes built from the
project path, board and port only; and replacing the baud value by any
other integer changes nothing about the invocation — baud is never
passed to either command. -/
theorem baud_extracted_coerced_never_passed (arguments : Args) (w : World) :
    ((∀ bv s, Args.get? arguments "board_id" = some bv →
        Args.get? arguments "baud" = some (Value.str s) → strToInt s = none →
        handle_build_upload arguments w =
          (Outcome.segments [⟨"text", "❌ Unexpected error: " ++
            ("invalid literal for int() with base 10: \x27" ++ s ++ "\x27")⟩], [])) ∧
     (∀ bv, Args.get? arguments "board_id" = some bv →
        Args.get? arguments "baud" = none →
        extractParams arguments =
          .ok (bv, Args.getD arguments "port" (Value.str "/dev/ttyUSB0"), 115200)) ∧
     (∀ e ∈ (handle_build_upload arguments w).2, e.isRun = true →
        (∃ path bs code out,
          e = Event.runCheckOutput ["pio", "run", "-d", path, "-e", bs] code out) ∨
        (∃ path bs ps code, e = Event.runCheckCall
            ["pio", "run", "-d", path, "-e", bs, "-t", "upload", "--upload-port", ps] code)) ∧
     (∀ n m : Int,
        handle_build_upload (Args.setKey arguments "baud" (Value.int n)) w =
        handle_build_upload (Args.setKey arguments "baud" (Value.int m)) w)) := by
  refine ⟨?_, ?_, ?_, ?_⟩
  · intro bv s hb hbaud hparse
    have hext : extractParams arguments = .error (.valueError
        ("invalid literal for int() with base 10: \x27" ++ s ++ "\x27")) := by
      unfold extractParams Args.getD
      rw [hb, hbaud]
      dsimp only [Option.getD]
      unfold pyInt
      dsimp only
      rw [hparse]
    unfold handle_build_upload handleCore
    rw [hext]
    rfl
  · intro bv hb hbaud
    unfold extractParams Args.getD
    rw [hb, hbaud]
    rfl
  · intro e he hrun
    rcases handleCore_trace_split arguments w e he with h | ⟨path, b2, p2, h⟩
    · have hfalse := resolveProject_no_run arguments w e h
      rw [hrun] at hfalse
      exact absurd hfalse (by simp)
    · rcases runPhase_cmd_shapes path b2 p2 w e h with ⟨bs, code, out, hsh⟩ | ⟨bs, ps, code, hsh⟩
      · exact Or.inl ⟨path, bs, code, out, hsh⟩
      · exact Or.inr ⟨path, bs, ps, code, hsh⟩
  · intro n m
    have hres : resolveProject (Args.setKey arguments "baud" (Value.int n)) w =
        resolveProject (Args.setKey arguments "baud" (Value.int m)) w := by
      apply resolveProject_keys
      · rw [get?_setKey_ne _ _ _ _ (by decide), get?_setKey_ne _ _ _ _ (by decide)]
      · rw [get?_setKey_ne _ _ _ _ (by decide), get?_setKey_ne _ _ _ _ (by decide)]
      · rw [get?_setKey_ne _ _ _ _ (by decide), get?_setKey_ne _ _ _ _ (by decide)]
    cases hbv : Args.get? arguments "board_id" with
    | none =>
      have e1 : extractParams (Args.setKey arguments "baud" (Value.int n)) =
          .error (.keyError "board_id") := by
        unfold extractParams
        rw [get?_setKey_ne _ _ _ _ (by decide), hbv]
      have e2 : extractParams (Args.setKey arguments "baud" (Value.int m)) =
          .error (.keyError "board_id") := by
        unfold extractParams
        rw [get?_setKey_ne _ _ _ _ (by decide), hbv]
      unfold handle_build_upload handleCore
      rw [e1, e2]
    | some bv =>
      have e1 : extractParams (Args.setKey arguments "baud" (Value.int n)) =
          .ok (bv, Args.getD arguments "port" (Value.str "/dev/ttyUSB0"), n) := by
        unfold extractParams Args.getD
        rw [get?_setKey_ne _ _ _ _ (by decide), hbv,
            get?_setKey_ne _ _ _ _ (by decide), get?_setKey_self]
        rfl
      have e2 : extractParams (Args.setKey arguments "baud" (Value.int m)) =
          .ok (bv, Args.getD arguments "port" (Value.str "/dev/ttyUSB0"), m) := by
        unfold extractParams Args.getD
        rw [get?_setKey_ne _ _ _ _ (by decide), hbv,
            get?_setKey_ne _ _ _ _ (by decide), get?_setKey_self]
        rfl
      unfold handle_build_upload handleCore
      rw [e1, e2, hres]

/-- Witness for baud_extracted_coerced_never_passed: a non-numeric
baud yields the coercion error with an empty trace; an absent baud
extracts as 115200; and two different numeric bauds give identical
invocations. -/
theorem baud_extracted_coerced_never_passed_witness :
    (handle_build_upload [("board_id", Value.str "uno"), ("baud", Value.str "fast")] wOK =
      (Outcome.segments [⟨"text",
        "❌ Unexpected error: invalid literal for int() with base 10: \x27fast\x27"⟩], [])) ∧
    (extractParams [("board_id", Value.str "uno")] =
      .ok (Value.str "uno", Value.str "/dev/ttyUSB0", 115200)) ∧
    (handle_build_upload (Args.setKey
        [("board_id", Value.str "uno"), ("project_dir", Value.str "/p")]
        "baud" (Value.int 9600)) wOK =
     handle_build_upload (Args.setKey
        [("board_id", Value.str "uno"), ("project_dir", Value.str "/p")]
        "baud" (Value.int 115200)) wOK) := by
  have h1 := baud_extracted_coerced_never_passed
      [("board_id", Value.str "uno"), ("baud", Value.str "fast")] wOK
  have h2 := baud_extracted_coerced_never_passed [("board_id", Value.str "uno")] wOK
  have h3 := baud_extracted_coerced_never_passed
      [("board_id", Value.str "uno"), ("project_dir", Value.str "/p")] wOK
  exact ⟨h1.1 (Value.str "uno") "fast" rfl rfl rfl,
         h2.2.1 (Value.str "uno") rfl rfl,
         h3.2.2.2 9600 115200⟩

/-- With a falsy project_dir the resolution stage never queries the
filesystem for existence. -/
lemma resolveProject_falsy_no_check (a : Args) (w : World)
    (hpd : optTruthy (Args.get? a "project_dir") = false) :
    ∀ e ∈ (resolveProject a w).2, ∀ p r, e ≠ Event.checkExists p r := by
  intro e he p r
  obtain ⟨rres, tr, hc⟩ : ∃ rres tr, resolveProject a w = (rres, tr) := ⟨_, _, rfl⟩
  rw [hc] at he
  simp only [Prod.snd] at he
  unfold resolveProject at hc
  dsimp only at hc
  rw [hpd] at hc
  simp only [Bool.false_eq_true, if_false] at hc
  repeat' split at hc
  all_goals simp only [Prod.mk.injEq] at hc
  all_goals obtain ⟨h1, h2⟩ := hc
  all_goals subst h2
  all_goals simp only [List.mem_cons, List.not_mem_nil, or_false, List.mem_singleton] at he
  all_goals first
    | exact he.elim
    | (rcases he with rfl | rfl | rfl | rfl <;> simp)
    | (rcases he with rfl | rfl | rfl <;> simp)
    | (rcases he with rfl | rfl <;> simp)
    | (subst he; simp)

/-- C10: a project_dir supplied as the empty string is treated exactly
as if the key were absent — the whole invocation (result and trace)
equals the one on the mapping with the key removed, no existence check
of any path is performed, and, extraction succeeding, an incomplete
inline pair is rejected with the missing-source segment. -/
theorem empty_project_dir_treated_as_absent (arguments : Args) (w : World)
    (hpd : Args.get? arguments "project_dir" = some (Value.str "")) :
    (handle_build_upload arguments w =
       handle_build_upload (List.filter (fun kv => !(kv.1 == "project_dir")) arguments) w) ∧
    (∀ p r, Event.checkExists p r ∉ (handle_build_upload arguments w).2) ∧
    (∀ board port baud, extractParams arguments = .ok (board, port, baud) →
      (optTruthy (Args.get? arguments "platformio_ini") = false ∨
       optTruthy (Args.get? arguments "src") = false) →
      handle_build_upload arguments w =
        (Outcome.segments [⟨"text",
          "❌ Unexpected error: Either project_dir or both platformio_ini and src must be provided."⟩], [])) := by
  have hfalsy1 : optTruthy (Args.get? arguments "project_dir") = false := by
    rw [hpd]; rfl
  refine ⟨?_, ?_, ?_⟩
  · unfold handle_build_upload handleCore
    rw [extractParams_keys arguments (List.filter (fun kv => !(kv.1 == "project_dir")) arguments)
          (get?_filterNe arguments "board_id" "project_dir" (by decide)).symm
          (get?_filterNe arguments "port" "project_dir" (by decide)).symm
          (get?_filterNe arguments "baud" "project_dir" (by decide)).symm,
        resolveProject_falsy_congr arguments
          (List.filter (fun kv => !(kv.1 == "project_dir")) arguments) w hfalsy1
          (by rw [get?_filter_self]; rfl)
          (get?_filterNe arguments "platformio_ini" "project_dir" (by decide)).symm
          (get?_filterNe arguments "src" "project_dir" (by decide)).symm]
  · intro p r hmem
    rcases handleCore_trace_split arguments w _ hmem with h | ⟨path, b2, p2, h⟩
    · exact resolveProject_falsy_no_check arguments w hfalsy1 _ h p r rfl
    · simpa [Event.isRun] using runPhase_all_run path b2 p2 w _ h
  · intro board port baud hext hmiss
    have hres := resolveProject_missing_source arguments w hfalsy1 hmiss
    unfold handle_build_upload handleCore
    rw [hext, hres]
    rfl

/-- Witness for empty_project_dir_treated_as_absent: the invocation
with project_dir equal to the empty string equals the invocation
without the key. -/
theorem empty_project_dir_treated_as_absent_witness :
    handle_build_upload [("board_id", Value.str "uno"), ("project_dir", Value.str "")] wOK =
      handle_build_upload (List.filter (fun kv => !(kv.1 == "project_dir"))
        [("board_id", Value.str "uno"), ("project_dir", Value.str "")]) wOK :=
  (empty_project_dir_treated_as_absent
    [("board_id", Value.str "uno"), ("project_dir", Value.str "")] wOK rfl).1
